import Mathlib

/-!
Verification of the WIDGET-LAUNCHER startup placement logic
(`src/src-tauri/src/lib.rs`, function `run`).

The setup closure passed to `tauri::Builder::setup` is embedded as a pure
function from the results of the external Display Service queries (window
lookup, always-on-top, current monitor, outer size, set position) to the
ordered list of commands it issues plus its return value.  Rust `i32`
arithmetic (including the `as i32` casts of `u32` values) is modelled on
`Int` with explicit two's-complement wrapping modulo `2^32`.
-/

namespace WidgetLauncher

/-- Two's-complement wrap of an integer into the `i32` range
`[-2^31, 2^31)`.  This is the result of Rust `i32` arithmetic in release
builds and of `as i32` casts in every build. -/
def wrap32 (n : Int) : Int := (n + 2 ^ 31) % 2 ^ 32 - 2 ^ 31

/-- Rust `u32 as i32` cast: two's-complement reinterpretation. -/
def u32ToI32 (n : Nat) : Int := wrap32 n

/-- Embedding of `tauri::PhysicalPosition<i32>`. -/
structure PhysicalPosition where
  x : Int
  y : Int
deriving Repr, DecidableEq

/-- Embedding of `tauri::PhysicalSize<u32>`. -/
structure PhysicalSize where
  width : Nat
  height : Nat
deriving Repr, DecidableEq

/-- Monitor geometry as returned by `window.current_monitor()`:
`monitor.position()` and `monitor.size()`. -/
structure Monitor where
  position : PhysicalPosition
  size : PhysicalSize
deriving Repr, DecidableEq

/-- `let margin = 14_i32;` in `run`. -/
def margin : Int := 14

/-- `PhysicalSize::new(210, 56)`, the `unwrap_or` fallback for
`window.outer_size()`. -/
def fallbackSize : PhysicalSize := ⟨210, 56⟩

/-- `let x = monitor_pos.x + monitor_size.width as i32 - window_size.width as i32 - margin;`
with each `i32` operation wrapped. -/
def placementX (monitor : Monitor) (windowSize : PhysicalSize) : Int :=
  wrap32 (wrap32 (wrap32 (monitor.position.x + u32ToI32 monitor.size.width)
    - u32ToI32 windowSize.width) - margin)

/-- `let y = monitor_pos.y + monitor_size.height as i32 - window_size.height as i32 - margin;`
with each `i32` operation wrapped. -/
def placementY (monitor : Monitor) (windowSize : PhysicalSize) : Int :=
  wrap32 (wrap32 (wrap32 (monitor.position.y + u32ToI32 monitor.size.height)
    - u32ToI32 windowSize.height) - margin)

/-- The corner placement computation: the pair `(x, y)` passed to
`PhysicalPosition::new(x, y)` inside the setup closure. -/
def cornerPlacement (monitor : Monitor) (windowSize : PhysicalSize) : PhysicalPosition :=
  ⟨placementX monitor windowSize, placementY monitor windowSize⟩

/-- Commands the setup closure issues to the Display Service, in order. -/
inductive Effect where
  | setAlwaysOnTop (flag : Bool)
  | setPosition (pos : PhysicalPosition)
deriving Repr, DecidableEq

/-- Results of the external Display Service queries available to the setup
closure.  `mainWindow` is whether `app.get_webview_window("main")` returns
`Some`; the two `Result<(), _>` fields are the outcomes of the commands
whose results the closure discards with `let _ =`. -/
structure Env where
  mainWindow : Bool
  setAlwaysOnTopResult : Except Unit Unit
  currentMonitor : Except Unit (Option Monitor)
  outerSize : Except Unit PhysicalSize
  setPositionResult : Except Unit Unit

/-- The setup closure `|app| { ... Ok(()) }` of `run`: returns the list of
commands issued (in order) and the closure's return value.  The results of
`set_always_on_top` and `set_position` are discarded by the source
(`let _ =`), so `env.setAlwaysOnTopResult` and `env.setPositionResult` do
not influence the control flow. -/
def setupCallback (env : Env) : List Effect × Except String Unit :=
  if env.mainWindow then
    match env.currentMonitor with
    | .ok (some monitor) =>
      let windowSize :=
        match env.outerSize with
        | .ok s => s
        | .error _ => fallbackSize
      ([.setAlwaysOnTop true, .setPosition (cornerPlacement monitor windowSize)], .ok ())
    | _ => ([.setAlwaysOnTop true], .ok ())
  else
    ([], .ok ())

theorem wrap32_wrap32_add (a b : Int) : wrap32 (wrap32 a + b) = wrap32 (a + b) := by
  unfold wrap32; omega

theorem wrap32_add_wrap32 (a b : Int) : wrap32 (a + wrap32 b) = wrap32 (a + b) := by
  unfold wrap32; omega

theorem wrap32_wrap32_sub (a b : Int) : wrap32 (wrap32 a - b) = wrap32 (a - b) := by
  unfold wrap32; omega

theorem wrap32_sub_wrap32 (a b : Int) : wrap32 (a - wrap32 b) = wrap32 (a - b) := by
  unfold wrap32; omega

theorem wrap32_eq_self (a : Int) (h1 : -(2 ^ 31) ≤ a) (h2 : a < 2 ^ 31) :
    wrap32 a = a := by
  unfold wrap32; omega

/-- The nested per-operation wraps collapse: `placementX` is the single wrap
of the mathematical value `monitor.x + monitor.width - window.width - margin`. -/
theorem placementX_eq_wrap (monitor : Monitor) (windowSize : PhysicalSize) :
    placementX monitor windowSize =
      wrap32 (monitor.position.x + monitor.size.width - windowSize.width - margin) := by
  unfold placementX u32ToI32 wrap32
  omega

/-- Companion of `placementX_eq_wrap` for the `y` coordinate. -/
theorem placementY_eq_wrap (monitor : Monitor) (windowSize : PhysicalSize) :
    placementY monitor windowSize =
      wrap32 (monitor.position.y + monitor.size.height - windowSize.height - margin) := by
  unfold placementY u32ToI32 wrap32
  omega

/-- Branch lemma: `get_webview_window("main")` returns `None`: the closure
issues no commands and returns `Ok(())`. -/
theorem setup_no_window (env : Env) (h : env.mainWindow = false) :
    setupCallback env = ([], .ok ()) := by
  simp [setupCallback, h]

/-- Branch lemma: window found but `current_monitor()` returns an error or
`Ok(None)`: only the always-on-top command is issued. -/
theorem setup_no_monitor (env : Env) (hw : env.mainWindow = true)
    (hm : env.currentMonitor = .error () ∨ env.currentMonitor = .ok none) :
    setupCallback env = ([.setAlwaysOnTop true], .ok ()) := by
  rcases hm with hm | hm <;> simp [setupCallback, hw, hm]

/-- Branch lemma: window and monitor resolved, `outer_size()` succeeds with
`S`: the placement is computed from `S` and applied. -/
theorem setup_size_ok (env : Env) (M : Monitor) (S : PhysicalSize)
    (hw : env.mainWindow = true) (hm : env.currentMonitor = .ok (some M))
    (hs : env.outerSize = .ok S) :
    setupCallback env =
      ([.setAlwaysOnTop true, .setPosition (cornerPlacement M S)], .ok ()) := by
  simp [setupCallback, hw, hm, hs]

/-- Branch lemma: window and monitor resolved, `outer_size()` fails: the
placement is computed from the fallback size and applied. -/
theorem setup_size_err (env : Env) (M : Monitor)
    (hw : env.mainWindow = true) (hm : env.currentMonitor = .ok (some M))
    (hs : env.outerSize = .error ()) :
    setupCallback env =
      ([.setAlwaysOnTop true, .setPosition (cornerPlacement M fallbackSize)], .ok ()) := by
  simp [setupCallback, hw, hm, hs]

/-- The setup closure returns `Ok(())` on every branch. -/
theorem setup_snd_ok (env : Env) : (setupCallback env).2 = Except.ok () := by
  obtain ⟨mw, sat, cm, os, sp⟩ := env
  cases mw
  · simp [setupCallback]
  · rcases cm with u | o
    · simp [setupCallback]
    · rcases o with _ | M
      · simp [setupCallback]
      · rcases os with u | s <;> simp [setupCallback]

/-- C1, counterexample: the unconditional placement formula fails on the
code.  For monitor position `(300, 0)`, monitor size `(2^31, 1080)` (a valid
`u32` width satisfying the claim's side conditions `W ≤ M`) and window size
`(210, 56)`, the `u32 as i32` cast in the source reinterprets the width as
`-2^31`, so the computed `x` is `-2147483572`, not the claimed
`300 + 2^31 - 210 - 14 = 2147483724`; the bottom-right-corner invariant for
`x` fails as well.  No intermediate addition or subtraction overflows here,
so this is the behaviour of every Rust build profile. -/
theorem claim1_counterexample :
    ((210 : Nat) ≤ 2147483648 ∧ (56 : Nat) ≤ 1080) ∧
    cornerPlacement ⟨⟨300, 0⟩, ⟨2147483648, 1080⟩⟩ ⟨210, 56⟩ ≠
      ⟨(300 : Int) + 2147483648 - 210 - margin, (0 : Int) + 1080 - 56 - margin⟩ ∧
    (cornerPlacement ⟨⟨300, 0⟩, ⟨2147483648, 1080⟩⟩ ⟨210, 56⟩).x + 210 + margin ≠
      (300 : Int) + 2147483648 := by
  decide

/-- C1, amended: whenever the mathematical values
`M.position + M.size - W - margin` fit in the `i32` range (in particular for
all realistic display geometry), the placement computation returns exactly
`(M.position.x + M.size.width - W.width - margin,
M.position.y + M.size.height - W.height - margin)`, and the
bottom-right-corner invariant `x + W.width + margin = M.position.x +
M.size.width` holds, symmetrically for `y`. -/
theorem claim1_amended (M : Monitor) (W : PhysicalSize)
    (hx1 : -(2 ^ 31) ≤ M.position.x + M.size.width - W.width - margin)
    (hx2 : M.position.x + M.size.width - W.width - margin < 2 ^ 31)
    (hy1 : -(2 ^ 31) ≤ M.position.y + M.size.height - W.height - margin)
    (hy2 : M.position.y + M.size.height - W.height - margin < 2 ^ 31) :
    cornerPlacement M W =
      ⟨M.position.x + M.size.width - W.width - margin,
       M.position.y + M.size.height - W.height - margin⟩ ∧
    placementX M W + W.width + margin = M.position.x + M.size.width ∧
    placementY M W + W.height + margin = M.position.y + M.size.height := by
  have hx := placementX_eq_wrap M W
  have hy := placementY_eq_wrap M W
  rw [wrap32_eq_self _ hx1 hx2] at hx
  rw [wrap32_eq_self _ hy1 hy2] at hy
  refine ⟨?_, by omega, by omega⟩
  show (⟨placementX M W, placementY M W⟩ : PhysicalPosition) = _
  rw [hx, hy]

/-- C1, witness: the amended theorem applied to Scenario 1 geometry. -/
theorem claim1_witness :
    cornerPlacement ⟨⟨0, 0⟩, ⟨1920, 1080⟩⟩ ⟨210, 56⟩ =
      ⟨(0 : Int) + 1920 - 210 - margin, (0 : Int) + 1080 - 56 - margin⟩ ∧
    placementX ⟨⟨0, 0⟩, ⟨1920, 1080⟩⟩ ⟨210, 56⟩ + 210 + margin = (0 : Int) + 1920 ∧
    placementY ⟨⟨0, 0⟩, ⟨1920, 1080⟩⟩ ⟨210, 56⟩ + 56 + margin = (0 : Int) + 1080 :=
  claim1_amended ⟨⟨0, 0⟩, ⟨1920, 1080⟩⟩ ⟨210, 56⟩
    (by decide) (by decide) (by decide) (by decide)

/-- C2: when the outer-size query fails, the setup closure invokes the
placement computation with the fixed fallback size `(210, 56)` — which is
neither zero nor undefined — and still applies the resulting position. -/
theorem claim2_fallback_used (env : Env) (M : Monitor)
    (hw : env.mainWindow = true) (hm : env.currentMonitor = .ok (some M))
    (hs : env.outerSize = .error ()) :
    setupCallback env =
      ([.setAlwaysOnTop true, .setPosition (cornerPlacement M fallbackSize)], .ok ()) ∧
    fallbackSize = ⟨210, 56⟩ ∧ fallbackSize.width ≠ 0 ∧ fallbackSize.height ≠ 0 :=
  ⟨setup_size_err env M hw hm hs, rfl, by decide, by decide⟩

/-- C2, witness: concrete run with a failing size query on Scenario 1
geometry. -/
theorem claim2_witness :
    setupCallback ⟨true, .ok (), .ok (some ⟨⟨0, 0⟩, ⟨1920, 1080⟩⟩), .error (), .ok ()⟩ =
      ([.setAlwaysOnTop true,
        .setPosition (cornerPlacement ⟨⟨0, 0⟩, ⟨1920, 1080⟩⟩ fallbackSize)], .ok ()) ∧
    fallbackSize = ⟨210, 56⟩ ∧ fallbackSize.width ≠ 0 ∧ fallbackSize.height ≠ 0 :=
  claim2_fallback_used _ _ rfl rfl rfl

/-- C3: with margin fixed at 14, Scenario 1 yields `(1696, 1010)` and
Scenario 2 (second monitor at `(1920, 0)`, fallback window size) yields
`(2976, 954)`. -/
theorem claim3_scenarios :
    margin = 14 ∧
    cornerPlacement ⟨⟨0, 0⟩, ⟨1920, 1080⟩⟩ ⟨210, 56⟩ = ⟨1696, 1010⟩ ∧
    cornerPlacement ⟨⟨1920, 0⟩, ⟨1280, 1024⟩⟩ fallbackSize = ⟨2976, 954⟩ := by
  decide

/-- C4: if the lookup of the `"main"` window fails, the setup closure issues
no commands at all (no always-on-top, no placement, no set-position) and
still returns `Ok(())`. -/
theorem claim4_window_lookup_failure (env : Env) (h : env.mainWindow = false) :
    setupCallback env = ([], Except.ok ()) :=
  setup_no_window env h

/-- C4, witness: concrete run with the window lookup failing. -/
theorem claim4_witness :
    setupCallback ⟨false, .ok (), .ok none, .ok ⟨210, 56⟩, .ok ()⟩ = ([], Except.ok ()) :=
  claim4_window_lookup_failure _ rfl

/-- C5: if the window is resolved but monitor resolution fails (query error
or no monitor), the setup closure issues exactly the always-on-top command —
so the attempt was already made — performs no placement computation or
set-position call, and returns `Ok(())`. -/
theorem claim5_monitor_failure (env : Env) (hw : env.mainWindow = true)
    (hm : env.currentMonitor = .error () ∨ env.currentMonitor = .ok none) :
    setupCallback env = ([.setAlwaysOnTop true], Except.ok ()) :=
  setup_no_monitor env hw hm

/-- C5, witness: concrete run with the monitor query erroring. -/
theorem claim5_witness :
    setupCallback ⟨true, .ok (), .error (), .ok ⟨210, 56⟩, .ok ()⟩ =
      ([.setAlwaysOnTop true], Except.ok ()) :=
  claim5_monitor_failure _ rfl (Or.inl rfl)

/-- C6, counterexample: the oversized-window claim fails on the code without
a range restriction.  Monitor at `(0, 0)` with width `100`, window width
`2^31 + 200 > 100`: the `u32 as i32` cast reinterprets the window width as
the negative value `-2^31 + 200`, so the computed `x` is `2147483534`, which
is not less than the monitor origin `0`.  No intermediate addition or
subtraction overflows here, so this is the behaviour of every Rust build
profile. -/
theorem claim6_counterexample :
    (100 : Nat) < 2147483848 ∧ 0 ≤ margin ∧
    ¬ (cornerPlacement ⟨⟨0, 0⟩, ⟨100, 1080⟩⟩ ⟨2147483848, 56⟩).x < 0 := by
  decide

/-- C6, amended: the margin is non-negative, and on every axis where the
window size exceeds the monitor size, provided the monitor position is a
valid `i32` and the mathematical coordinate does not underflow the `i32`
range, the computed coordinate is exactly the unclamped formula value and is
strictly less than the monitor origin on that axis. -/
theorem claim6_amended (M : Monitor) (W : PhysicalSize) :
    0 ≤ margin ∧
    (M.size.width < W.width → M.position.x < 2 ^ 31 →
      -(2 ^ 31) ≤ M.position.x + M.size.width - W.width - margin →
      placementX M W = M.position.x + M.size.width - W.width - margin ∧
      placementX M W < M.position.x) ∧
    (M.size.height < W.height → M.position.y < 2 ^ 31 →
      -(2 ^ 31) ≤ M.position.y + M.size.height - W.height - margin →
      placementY M W = M.position.y + M.size.height - W.height - margin ∧
      placementY M W < M.position.y) := by
  have hmargin : margin = 14 := rfl
  refine ⟨by decide, ?_, ?_⟩
  · intro h1 h2 h3
    have hx := placementX_eq_wrap M W
    rw [wrap32_eq_self _ h3 (by omega)] at hx
    exact ⟨hx, by omega⟩
  · intro h1 h2 h3
    have hy := placementY_eq_wrap M W
    rw [wrap32_eq_self _ h3 (by omega)] at hy
    exact ⟨hy, by omega⟩

/-- C6, witness: window `(2000, 2000)` on the Scenario 1 monitor exceeds it
on both axes; the computed coordinates are the unclamped negative offsets
`(-94, -934)` relative to the monitor origin `(0, 0)`. -/
theorem claim6_witness :
    (placementX ⟨⟨0, 0⟩, ⟨1920, 1080⟩⟩ ⟨2000, 2000⟩ =
        (0 : Int) + 1920 - 2000 - margin ∧
      placementX ⟨⟨0, 0⟩, ⟨1920, 1080⟩⟩ ⟨2000, 2000⟩ < (0 : Int)) ∧
    (placementY ⟨⟨0, 0⟩, ⟨1920, 1080⟩⟩ ⟨2000, 2000⟩ =
        (0 : Int) + 1080 - 2000 - margin ∧
      placementY ⟨⟨0, 0⟩, ⟨1920, 1080⟩⟩ ⟨2000, 2000⟩ < (0 : Int)) :=
  ⟨(claim6_amended ⟨⟨0, 0⟩, ⟨1920, 1080⟩⟩ ⟨2000, 2000⟩).2.1
      (by decide) (by decide) (by decide),
   (claim6_amended ⟨⟨0, 0⟩, ⟨1920, 1080⟩⟩ ⟨2000, 2000⟩).2.2
      (by decide) (by decide) (by decide)⟩

/-- C7, counterexample: not every failed external operation short-circuits
the remaining steps.  In a run where `set_always_on_top` fails (its result
is discarded by `let _ =`), the later monitor query, placement computation
and `set_position` call still execute, so the command trace is not cut off
at the failed operation. -/
theorem claim7_counterexample :
    ¬ (∀ env : Env, env.mainWindow = true → env.setAlwaysOnTopResult = .error () →
        (setupCallback env).1 = [.setAlwaysOnTop true]) := by
  intro h
  have h0 := h ⟨true, .error (), .ok (some ⟨⟨0, 0⟩, ⟨1920, 1080⟩⟩), .ok ⟨210, 56⟩, .ok ()⟩
    rfl rfl
  exact absurd h0 (by decide)

/-- C7, amended: the setup closure always returns `Ok(())`; a failed window
lookup short-circuits every remaining step, and a failed monitor resolution
short-circuits the placement steps; but failures of `set_always_on_top` and
of the size query are merely absorbed — the remaining steps still run (the
size query via the fallback size), whatever those operations' results are. -/
theorem claim7_amended (env : Env) :
    (setupCallback env).2 = Except.ok () ∧
    (env.mainWindow = false → (setupCallback env).1 = []) ∧
    (env.mainWindow = true → (∀ M : Monitor, env.currentMonitor ≠ .ok (some M)) →
      (setupCallback env).1 = [.setAlwaysOnTop true]) ∧
    (env.mainWindow = true → ∀ M : Monitor, env.currentMonitor = .ok (some M) →
      ∃ W : PhysicalSize,
        (setupCallback env).1 =
          [.setAlwaysOnTop true, .setPosition (cornerPlacement M W)]) := by
  refine ⟨setup_snd_ok env, fun h => by rw [setup_no_window env h], ?_, ?_⟩
  · intro hw hm
    have hcm : env.currentMonitor = .error () ∨ env.currentMonitor = .ok none := by
      rcases hc : env.currentMonitor with u | o
      · exact Or.inl rfl
      · rcases o with _ | M
        · exact Or.inr rfl
        · exact absurd hc (hm M)
    rw [setup_no_monitor env hw hcm]
  · intro hw M hm
    rcases hs : env.outerSize with u | s
    · exact ⟨fallbackSize, by rw [setup_size_err env M hw hm hs]⟩
    · exact ⟨s, by rw [setup_size_ok env M s hw hm hs]⟩

/-- C7, witness: the amended theorem at concrete runs — a failed window
lookup yields an empty trace, and a failed always-on-top call with a failed
monitor query still yields exactly the always-on-top attempt. -/
theorem claim7_witness :
    (setupCallback ⟨false, .error (), .error (), .error (), .error ()⟩).1 = [] ∧
    (setupCallback ⟨true, .error (), .error (), .error (), .error ()⟩).1 =
      [.setAlwaysOnTop true] :=
  ⟨(claim7_amended ⟨false, .error (), .error (), .error (), .error ()⟩).2.1 rfl,
   (claim7_amended ⟨true, .error (), .error (), .error (), .error ()⟩).2.2.1 rfl
      (fun _ h => Except.noConfusion h)⟩

/-- C8: the placement computation is a pure function — two invocations with
identical monitor geometry and window size return identical positions; as a
plain function of its arguments it reads and writes no state. -/
theorem claim8_pure_deterministic (M₁ M₂ : Monitor) (W₁ W₂ : PhysicalSize)
    (hM : M₁ = M₂) (hW : W₁ = W₂) :
    cornerPlacement M₁ W₁ = cornerPlacement M₂ W₂ := by
  rw [hM, hW]

/-- C8, witness: two invocations on Scenario 1 inputs agree. -/
theorem claim8_witness :
    cornerPlacement ⟨⟨0, 0⟩, ⟨1920, 1080⟩⟩ ⟨210, 56⟩ =
      cornerPlacement ⟨⟨0, 0⟩, ⟨1920, 1080⟩⟩ ⟨210, 56⟩ :=
  claim8_pure_deterministic _ _ _ _ rfl rfl

/-- C9: the setup closure returns `Ok(())` on every possible combination of
query results — window lookup, always-on-top, monitor resolution, size
query and set-position outcomes included — so the setup step can never
report an error. -/
theorem claim9_setup_always_ok (env : Env) : (setupCallback env).2 = Except.ok () :=
  setup_snd_ok env

/-- C9, witness: a run in which every external operation fails still returns
`Ok(())`. -/
theorem claim9_witness :
    (setupCallback ⟨true, .error (), .error (), .error (), .error ()⟩).2 =
      Except.ok () :=
  claim9_setup_always_ok ⟨true, .error (), .error (), .error (), .error ()⟩

/-- C10: when the outer-size query succeeds with `S`, the placement is
computed from `S` exactly as reported — the fallback is not substituted on
the success path. -/
theorem claim10_size_used_as_is (env : Env) (M : Monitor) (S : PhysicalSize)
    (hw : env.mainWindow = true) (hm : env.currentMonitor = .ok (some M))
    (hs : env.outerSize = .ok S) :
    setupCallback env =
      ([.setAlwaysOnTop true, .setPosition (cornerPlacement M S)], .ok ()) :=
  setup_size_ok env M S hw hm hs

/-- C10, witness: a degenerate reported size `(0, 0)` is used as-is, not
replaced by the fallback. -/
theorem claim10_witness :
    setupCallback ⟨true, .ok (), .ok (some ⟨⟨0, 0⟩, ⟨1920, 1080⟩⟩), .ok ⟨0, 0⟩, .ok ()⟩ =
      ([.setAlwaysOnTop true,
        .setPosition (cornerPlacement ⟨⟨0, 0⟩, ⟨1920, 1080⟩⟩ ⟨0, 0⟩)], .ok ()) :=
  claim10_size_used_as_is _ _ _ rfl rfl rfl

end WidgetLauncher
